import Mathlib

/-!
Shallow embedding of `youtube-to-jpg` (src/src/main.rs), a CLI pipeline:
check ffmpeg on PATH, check/acquire yt-dlp, resolve the video target path
(caller path or fresh temp dir), download via yt-dlp, extract frames via
ffmpeg, then drop the temp-dir guard.

Modelling conventions:
- Paths and PATH entries are strings; the process search path is modelled
  as its list of directory entries (the Rust code edits the `PATH` string
  with a `:` separator, which on the entry list is a single prepend).
- External effects (which-lookups, the yt-dlp fetcher, tempdir creation,
  create_dir_all, the two subprocess runs) are resolved by an `Env` oracle,
  and every operation also returns the list of effect `Event`s it performed,
  in order, so temporal claims are statements about traces.
-/

namespace YoutubeToJpg

/-- Mirror of the clap-derived `Cli` struct (main.rs lines 10-51). -/
structure Cli where
  url : String
  out_dir : String
  fps : Nat
  pattern : String
  scale : Option String
  start : Option String
  duration : Option String
  keep_video : Bool
  video_path : String
  fetch_yt_dlp : Bool
  deriving Repr, DecidableEq

/-- The clap defaults for every flag (main.rs attribute defaults):
out_dir "frames", fps 10, pattern "frame_%06d.png", video_path "video.mp4",
booleans false, optional strings absent. -/
def cliDefault (url : String) : Cli :=
  { url := url
    out_dir := "frames"
    fps := 10
    pattern := "frame_%06d.png"
    scale := none
    start := none
    duration := none
    keep_video := false
    video_path := "video.mp4"
    fetch_yt_dlp := false }

/-- Rust `Path::join` for the cases the program exercises (relative second
component): base, separator, leaf. -/
def joinPath (dir file : String) : String := dir ++ "/" ++ file

/-- Rust `Path::parent` restricted to the separator-based view used here:
everything before the final `/`, or `none` when the path is a bare name. -/
def pathParent (p : String) : Option String :=
  match p.splitOn "/" with
  | [] => none
  | [_] => none
  | comps => some (String.intercalate "/" comps.dropLast)

/-- Embeds main.rs line 110: `path.parent().unwrap_or(Path::new("."))`. -/
def parentOrDot (p : String) : String :=
  match pathParent p with
  | some d => d
  | none => "."

/-- Embeds main.rs lines 151-154: `vec![format!("fps={}", fps)]`, then push
`format!("scale={}", s)` when a scale spec is present. -/
def vf_parts (fps : Nat) (scale : Option String) : List String :=
  let base := ["fps=" ++ toString fps]
  match scale with
  | some s => base ++ ["scale=" ++ s]
  | none => base

/-- Embeds main.rs line 155: `vf_parts.join(",")`. -/
def vf_chain (fps : Nat) (scale : Option String) : String :=
  String.intercalate "," (vf_parts fps scale)

/-- ffmpeg_cli's Parameter: a bare flag or a key-value pair. A plain string
passed to `.option(...)` becomes a Single. -/
inductive Parameter where
  | single (arg : String)
  | keyValue (key value : String)
  deriving Repr, DecidableEq

/-- ffmpeg_cli's Parameter::push_to: the crate itself prepends a dash to
the (expected dash-less) name — Single s emits "-s", KeyValue k v emits
"-k" then v. main.rs passes already-dashed names, so they come out with a
double dash. -/
def Parameter.pushArgs : Parameter → List String
  | .single arg => ["-" ++ arg]
  | .keyValue key value => ["-" ++ key, value]

/-- ffmpeg_cli's File (imported as FfmpegFile in main.rs): a url plus
per-file options. -/
structure FfmpegFile where
  url : String
  options : List Parameter
  deriving Repr, DecidableEq

/-- ffmpeg_cli's File::new: no options yet. -/
def FfmpegFile.new (url : String) : FfmpegFile := ⟨url, []⟩

/-- ffmpeg_cli's File::option: append one per-file option. -/
def FfmpegFile.option (f : FfmpegFile) (p : Parameter) : FfmpegFile :=
  { f with options := f.options ++ [p] }

/-- ffmpeg_cli's FfmpegBuilder: ONE global options vec plus input and
output files. Every `.option(...)` call appends to the global vec, no
matter where in the call sequence it appears. -/
structure FfmpegBuilder where
  options : List Parameter
  inputs : List FfmpegFile
  outputs : List FfmpegFile
  deriving Repr, DecidableEq

/-- ffmpeg_cli's FfmpegBuilder::new: everything empty. -/
def FfmpegBuilder.new : FfmpegBuilder := ⟨[], [], []⟩

/-- ffmpeg_cli's FfmpegBuilder::option: push onto the global options vec. -/
def FfmpegBuilder.option (b : FfmpegBuilder) (p : Parameter) : FfmpegBuilder :=
  { b with options := b.options ++ [p] }

/-- ffmpeg_cli's FfmpegBuilder::input: push an input file. -/
def FfmpegBuilder.input (b : FfmpegBuilder) (f : FfmpegFile) : FfmpegBuilder :=
  { b with inputs := b.inputs ++ [f] }

/-- ffmpeg_cli's FfmpegBuilder::output: push an output file. -/
def FfmpegBuilder.output (b : FfmpegBuilder) (f : FfmpegFile) : FfmpegBuilder :=
  { b with outputs := b.outputs ++ [f] }

/-- ffmpeg_cli's to_command argument order: ALL global options first, then
each input's options followed by "-i" and its url, then each output's
options followed by its url. -/
def FfmpegBuilder.toArgs (b : FfmpegBuilder) : List String :=
  (b.options.map Parameter.pushArgs).flatten
  ++ (b.inputs.map
      (fun f => (f.options.map Parameter.pushArgs).flatten ++ ["-i", f.url])).flatten
  ++ (b.outputs.map
      (fun f => (f.options.map Parameter.pushArgs).flatten ++ [f.url])).flatten

/-- The builder-call sequence of main.rs lines 157-175: options
"-hide_banner", "-y"; options "-ss", start when present; the input file;
options "-t", duration when present (these still land in the GLOBAL
options vec although the call follows `.input`); the output file with
"-vf" chain, "-vsync" "vfr", "-frame_pts" "1". -/
def ffmpeg_builder (input out_dir pattern : String) (fps : Nat)
    (scale start duration : Option String) : FfmpegBuilder :=
  let b := (FfmpegBuilder.new.option (.single "-hide_banner")).option
    (.single "-y")
  let b := match start with
    | some t => (b.option (.single "-ss")).option (.single t)
    | none => b
  let b := b.input (FfmpegFile.new input)
  let b := match duration with
    | some d => (b.option (.single "-t")).option (.single d)
    | none => b
  b.output ((((FfmpegFile.new (joinPath out_dir pattern)).option
      (.keyValue "-vf" (vf_chain fps scale))).option
      (.keyValue "-vsync" "vfr")).option (.keyValue "-frame_pts" "1"))

/-- The argument list ffmpeg_cli emits for the builder main.rs constructs. -/
def ffmpeg_args (input out_dir pattern : String) (fps : Nat)
    (scale start duration : Option String) : List String :=
  (ffmpeg_builder input out_dir pattern fps scale start duration).toArgs

/-- The extra arguments handed to yt-dlp in main.rs lines 123-127:
output path, format selection, remux request. -/
def yt_dlp_args (output_path : String) : List String :=
  ["-o", output_path,
   "-f", "bv*[ext=mp4]+ba[ext=m4a]/b[ext=mp4]/best",
   "--remux-video", "mp4"]

/-- Observable effects of one run, in the order they are performed. -/
inductive Event where
  | whichFfmpeg
  | whichYtDlp
  | fetchYtDlp
  | setPath
  | createTempDir (ok : Bool)
  | createDirAll (dir : String)
  | runYtDlp (extraArgs : List String) (url : String)
  | runFfmpeg (args : List String)
  | removeTempDir
  deriving Repr, DecidableEq

/-- Oracle for everything outside the program: the search path (as its list
of directory entries), which binaries each directory holds, and the outcome
of each external operation the program may perform. -/
structure Env where
  pathDirs : List String
  hasBin : String → String → Bool
  fetchOutcome : Except String String
  tempdirOutcome : Except String String
  createDirAllOk : String → Bool
  ytdlpRunOk : Bool
  ytdlpProducesFile : Bool
  ffmpegRunOk : Bool

/-- Errors, one per failure site of main.rs. -/
inductive PErr where
  | configurationError (msg : String)
  | ytDlpMissing (msg : String)
  | fetchError (msg : String)
  | resourceError (msg : String)
  | downloadToolFailed
  | downloadMissingOutput (path : String)
  | outputDirUnavailable
  | extractionToolFailed
  deriving Repr, DecidableEq

/-- The which crate: first PATH entry holding a binary of that name. -/
def whichBin (env : Env) (name : String) : Option String :=
  env.pathDirs.find? (fun d => env.hasBin d name)

/-- Embeds main.rs lines 86-91: fatal when ffmpeg is not on PATH. -/
def ensure_ffmpeg_available (env : Env) : Except PErr Unit × List Event :=
  match whichBin env "ffmpeg" with
  | some _ => (.ok (), [.whichFfmpeg])
  | none => (.error (.configurationError "ffmpeg not found on PATH. "),
             [.whichFfmpeg])

/-- The bail message of main.rs lines 98-101 (after the Rust line
continuation joins the two fragments). -/
def ytDlpMissingMsg : String :=
  "yt-dlp not found on PATH. Install it (`pip install yt-dlp`, package manager) or run with --fetch-yt-dlp."

/-- Embeds main.rs lines 93-114. On the fetch branch the YoutubeDlFetcher contract
(spec section 4.2: the fetcher writes the binary at the returned path) is
modelled by recording the binary in `hasBin`; main.rs then sets PATH to
parent-of-fetched-path, ":", old PATH — on the entry list, a prepend. -/
def ensure_yt_dlp_available (fetch_if_missing : Bool) (env : Env) :
    Except PErr Unit × List Event × Env :=
  if (whichBin env "yt-dlp").isSome then
    (.ok (), [.whichYtDlp], env)
  else if !fetch_if_missing then
    (.error (.ytDlpMissing ytDlpMissingMsg), [.whichYtDlp], env)
  else
    match env.fetchOutcome with
    | .error e => (.error (.fetchError e), [.whichYtDlp, .fetchYtDlp], env)
    | .ok p =>
      let d := parentOrDot p
      (.ok (), [.whichYtDlp, .fetchYtDlp, .setPath],
       { env with
         pathDirs := d :: env.pathDirs
         hasBin := fun dir n => (dir == d && n == "yt-dlp") || env.hasBin dir n })

/-- Result of the keep_video match in main.rs lines 60-67: the download
target path and, when ephemeral, the temp-dir guard's directory. -/
structure VideoTarget where
  path : String
  tmp : Option String
  deriving Repr, DecidableEq

/-- Embeds main.rs lines 60-67: keep_video reuses cli.video_path with no guard;
otherwise tempdir() is attempted and video.mp4 is placed inside it. -/
def resolve_video_target (cli : Cli) (env : Env) :
    Except PErr VideoTarget × List Event :=
  match cli.keep_video with
  | true => (.ok ⟨cli.video_path, none⟩, [])
  | false =>
    match env.tempdirOutcome with
    | .error e => (.error (.resourceError e), [.createTempDir false])
    | .ok tmp => (.ok ⟨joinPath tmp "video.mp4", some tmp⟩, [.createTempDir true])

/-- Embeds main.rs lines 116-136: best-effort create of the parent dir (result
ignored), run yt-dlp with the extra args, propagate a run failure, then
fail with the missing-output bail when the file is absent. -/
def download_video_as_mp4 (url output_path : String) (env : Env) :
    Except PErr String × List Event :=
  let mkdirEvents : List Event :=
    (pathParent output_path).toList.map Event.createDirAll
  let ev := mkdirEvents ++ [.runYtDlp (yt_dlp_args output_path) url]
  if env.ytdlpRunOk then
    if env.ytdlpProducesFile then (.ok output_path, ev)
    else (.error (.downloadMissingOutput output_path), ev)
  else (.error .downloadToolFailed, ev)

/-- Embeds main.rs lines 138-179: create the output directory (fatal on failure,
before any ffmpeg run), then run ffmpeg with the built argument list. -/
def extract_frames_with_ffmpeg (input out_dir pattern : String) (fps : Nat)
    (scale start duration : Option String) (env : Env) :
    Except PErr Unit × List Event :=
  if env.createDirAllOk out_dir then
    let args := ffmpeg_args input out_dir pattern fps scale start duration
    if env.ffmpegRunOk then
      (.ok (), [.createDirAll out_dir, .runFfmpeg args])
    else
      (.error .extractionToolFailed, [.createDirAll out_dir, .runFfmpeg args])
  else
    (.error .outputDirUnavailable, [.createDirAll out_dir])

/-- Embeds main.rs lines 53-84: the pipeline. The temp-dir guard bound at line 60
is dropped when main returns, on every path reached after its creation;
the drop deletes the directory recursively (removeTempDir). -/
def run_main (cli : Cli) (env : Env) : Except PErr Unit × List Event :=
  match ensure_ffmpeg_available env with
  | (.error e, t1) => (.error e, t1)
  | (.ok _, t1) =>
    match ensure_yt_dlp_available cli.fetch_yt_dlp env with
    | (.error e, t2, _) => (.error e, t1 ++ t2)
    | (.ok _, t2, env1) =>
      match resolve_video_target cli env1 with
      | (.error e, t3) => (.error e, t1 ++ t2 ++ t3)
      | (.ok target, t3) =>
        let dropEv : List Event :=
          match target.tmp with
          | some _ => [.removeTempDir]
          | none => []
        match download_video_as_mp4 cli.url target.path env1 with
        | (.error e, t4) => (.error e, t1 ++ t2 ++ t3 ++ t4 ++ dropEv)
        | (.ok _, t4) =>
          match extract_frames_with_ffmpeg target.path cli.out_dir
            cli.pattern cli.fps cli.scale cli.start cli.duration env1 with
          | (r5, t5) => (r5, t1 ++ t2 ++ t3 ++ t4 ++ t5 ++ dropEv)

/-- A concrete oracle where both tools are installed and every external
operation succeeds. -/
def envBase : Env :=
  { pathDirs := ["/usr/bin"]
    hasBin := fun d n => d == "/usr/bin" && (n == "ffmpeg" || n == "yt-dlp")
    fetchOutcome := .ok "/opt/tools/yt-dlp"
    tempdirOutcome := .ok "/tmp/t0"
    createDirAllOk := fun _ => true
    ytdlpRunOk := true
    ytdlpProducesFile := true
    ffmpegRunOk := true }

/-- Like envBase but with only ffmpeg installed. -/
def envNoYtDlp : Env :=
  { envBase with hasBin := fun d n => d == "/usr/bin" && n == "ffmpeg" }

/-- Like envBase but with only yt-dlp installed. -/
def envNoFfmpeg : Env :=
  { envBase with hasBin := fun d n => d == "/usr/bin" && n == "yt-dlp" }

/-- cliDefault with the retention flag set. -/
def cliKeep (url : String) : Cli :=
  { cliDefault url with keep_video := true }

/-- cliDefault with the acquisition opt-in set. -/
def cliFetch (url : String) : Cli :=
  { cliDefault url with fetch_yt_dlp := true }

theorem intercalate_singleton (a : String) :
    String.intercalate "," [a] = a := rfl

theorem intercalate_pair (a b : String) :
    String.intercalate "," [a, b] = a ++ "," ++ b := rfl

theorem vf_chain_none (fps : Nat) : vf_chain fps none = "fps=" ++ toString fps :=
  rfl

theorem vf_chain_some (fps : Nat) (s : String) :
    vf_chain fps (some s) = "fps=" ++ toString fps ++ ",scale=" ++ s :=
  calc vf_chain fps (some s)
      = ("fps=" ++ toString fps ++ ",") ++ ("scale=" ++ s) := rfl
    _ = (("fps=" ++ toString fps ++ ",") ++ "scale=") ++ s :=
        (String.append_assoc _ _ _).symm
    _ = ("fps=" ++ toString fps ++ ("," ++ "scale=")) ++ s := by
        rw [String.append_assoc ("fps=" ++ toString fps) "," "scale="]
    _ = "fps=" ++ toString fps ++ ",scale=" ++ s := rfl

/-- Claim C1 (code bug): at fps 10, scale 1280:-1, start 00:00:05,
duration 10, input video.mp4, out_dir frames, pattern frame_%06d.png, the
constructed argument list places the duration option in the global-options
block BEFORE "-i video.mp4" — ffmpeg_cli keeps every .option() call in one
options vec emitted ahead of all inputs, and prepends a dash to the
already-dashed names — while the claim requires it after the input. The
filter chain part does hold: it is exactly "fps=10,scale=1280:-1". -/
theorem duration_option_precedes_input :
    ffmpeg_args "video.mp4" "frames" "frame_%06d.png" 10 (some "1280:-1")
        (some "00:00:05") (some "10")
      = ["--hide_banner", "--y", "--ss", "-00:00:05", "--t", "-10",
         "-i", "video.mp4",
         "--vf", "fps=10,scale=1280:-1", "--vsync", "vfr",
         "--frame_pts", "1", "frames/frame_%06d.png"] ∧
    vf_chain 10 (some "1280:-1") = "fps=10,scale=1280:-1" ∧
    ("-t" : String) ∉
      ffmpeg_args "video.mp4" "frames" "frame_%06d.png" 10 (some "1280:-1")
        (some "00:00:05") (some "10") ∧
    (ffmpeg_args "video.mp4" "frames" "frame_%06d.png" 10 (some "1280:-1")
        (some "00:00:05") (some "10")).indexOf "--t"
      < (ffmpeg_args "video.mp4" "frames" "frame_%06d.png" 10 (some "1280:-1")
        (some "00:00:05") (some "10")).indexOf "-i" := by
  refine ⟨by decide, by decide, by decide, by decide⟩

lemma ffmpeg_trace (env : Env) :
    (ensure_ffmpeg_available env).2 = [Event.whichFfmpeg] := by
  cases h : whichBin env "ffmpeg" <;> simp [ensure_ffmpeg_available, h]

lemma ensure_ytdlp_trace (f : Bool) (env : Env) :
    (ensure_yt_dlp_available f env).2.1 = [Event.whichYtDlp] ∨
    (ensure_yt_dlp_available f env).2.1 = [Event.whichYtDlp, Event.fetchYtDlp] ∨
    (ensure_yt_dlp_available f env).2.1
      = [Event.whichYtDlp, Event.fetchYtDlp, Event.setPath] := by
  cases h : (whichBin env "yt-dlp").isSome <;> cases f <;>
    cases hfo : env.fetchOutcome <;>
    simp [ensure_yt_dlp_available, h, hfo]

lemma download_trace (url path : String) (env : Env) :
    (download_video_as_mp4 url path env).2
      = (pathParent path).toList.map Event.createDirAll
        ++ [Event.runYtDlp (yt_dlp_args path) url] := by
  cases hr : env.ytdlpRunOk <;> cases hp : env.ytdlpProducesFile <;>
    simp [download_video_as_mp4, hr, hp]

lemma extract_trace (input out_dir pattern : String) (fps : Nat)
    (scale start duration : Option String) (env : Env) :
    (extract_frames_with_ffmpeg input out_dir pattern fps scale start duration env).2
      = [Event.createDirAll out_dir] ∨
    (extract_frames_with_ffmpeg input out_dir pattern fps scale start duration env).2
      = [Event.createDirAll out_dir,
         Event.runFfmpeg (ffmpeg_args input out_dir pattern fps scale start duration)] := by
  cases hcd : env.createDirAllOk out_dir <;> cases hff : env.ffmpegRunOk <;>
    simp [extract_frames_with_ffmpeg, hcd, hff]

lemma resolve_trace (cli : Cli) (env : Env) :
    (cli.keep_video = true ∧
      resolve_video_target cli env = (.ok ⟨cli.video_path, none⟩, [])) ∨
    (cli.keep_video = false ∧ ∃ d,
      resolve_video_target cli env
        = (.ok ⟨joinPath d "video.mp4", some d⟩, [Event.createTempDir true])) ∨
    (cli.keep_video = false ∧ ∃ e,
      resolve_video_target cli env
        = (.error (.resourceError e), [Event.createTempDir false])) := by
  cases hk : cli.keep_video with
  | true => exact .inl ⟨rfl, by simp [resolve_video_target, hk]⟩
  | false =>
    cases ht : env.tempdirOutcome with
    | ok d => exact .inr (.inl ⟨rfl, d, by simp [resolve_video_target, hk, ht]⟩)
    | error e => exact .inr (.inr ⟨rfl, e, by simp [resolve_video_target, hk, ht]⟩)


lemma run_main_scope (cli : Cli) (env : Env) :
    (cli.keep_video = true → Event.removeTempDir ∉ (run_main cli env).2 ∧
        Event.createTempDir true ∉ (run_main cli env).2) ∧
    (Event.createTempDir true ∈ (run_main cli env).2 →
        Event.removeTempDir ∈ (run_main cli env).2) := by
  have h1 := ffmpeg_trace env
  unfold run_main
  split
  · rename_i e t1 heq
    rw [heq] at h1
    simp only at h1
    subst h1
    simp
  · rename_i u1 t1 heq
    rw [heq] at h1
    simp only at h1
    subst h1
    have h2 := ensure_ytdlp_trace cli.fetch_yt_dlp env
    split
    · rename_i e t2 env1 heq2
      rw [heq2] at h2
      simp only at h2
      rcases h2 with h2 | h2 | h2 <;> subst h2 <;> simp
    · rename_i u2 t2 env1 heq2
      rw [heq2] at h2
      simp only at h2
      have h3 := resolve_trace cli env1
      split
      · rename_i e t3 heq3
        rcases h3 with ⟨hk, hres⟩ | ⟨hk, d, hres⟩ | ⟨hk, e', hres⟩ <;>
          rw [hres] at heq3 <;> simp only [Prod.mk.injEq] at heq3
        · exact absurd heq3.1 (by simp)
        · exact absurd heq3.1 (by simp)
        · obtain ⟨-, ht3⟩ := heq3
          subst ht3
          rcases h2 with h2 | h2 | h2 <;> subst h2 <;> simp [hk]
      · rename_i target t3 heq3
        have h4 := download_trace cli.url target.path env1
        rcases h3 with ⟨hk, hres⟩ | ⟨hk, d, hres⟩ | ⟨hk, e', hres⟩ <;>
          rw [hres] at heq3 <;> simp only [Prod.mk.injEq, Except.ok.injEq] at heq3
        · obtain ⟨htar, ht3⟩ := heq3
          subst ht3
          subst htar
          dsimp only
          split
          · rename_i e t4 heq4
            rw [heq4] at h4
            simp only at h4
            subst h4
            rcases h2 with h2 | h2 | h2 <;> subst h2 <;> simp [hk]
          · rename_i u4 t4 heq4
            rw [heq4] at h4
            simp only at h4
            subst h4
            have h5 := extract_trace cli.video_path cli.out_dir cli.pattern
              cli.fps cli.scale cli.start cli.duration env1
            rcases h5 with h5 | h5 <;> rw [h5] <;>
              rcases h2 with h2 | h2 | h2 <;> subst h2 <;> simp [hk]
        · obtain ⟨htar, ht3⟩ := heq3
          subst ht3
          subst htar
          dsimp only
          split
          · rename_i e t4 heq4
            rw [heq4] at h4
            simp only at h4
            subst h4
            rcases h2 with h2 | h2 | h2 <;> subst h2 <;> simp [hk]
          · rename_i u4 t4 heq4
            rw [heq4] at h4
            simp only at h4
            subst h4
            have h5 := extract_trace (joinPath d "video.mp4") cli.out_dir cli.pattern
              cli.fps cli.scale cli.start cli.duration env1
            rcases h5 with h5 | h5 <;> rw [h5] <;>
              rcases h2 with h2 | h2 | h2 <;> subst h2 <;> simp [hk]
        · exact absurd heq3.1 (by simp)


lemma count_setPath_map (o : Option String) :
    (o.toList.map Event.createDirAll).count Event.setPath = 0 := by
  cases o <;> simp [List.count_cons]

lemma run_main_setPath_once (cli : Cli) (env : Env) :
    ((run_main cli env).2).count Event.setPath ≤ 1 := by
  have h1 := ffmpeg_trace env
  unfold run_main
  split
  · rename_i e t1 heq
    rw [heq] at h1
    simp only at h1
    subst h1
    simp
  · rename_i u1 t1 heq
    rw [heq] at h1
    simp only at h1
    subst h1
    have h2 := ensure_ytdlp_trace cli.fetch_yt_dlp env
    split
    · rename_i e t2 env1 heq2
      rw [heq2] at h2
      simp only at h2
      rcases h2 with h2 | h2 | h2 <;> subst h2 <;>
        simp [List.count_append, List.count_cons]
    · rename_i u2 t2 env1 heq2
      rw [heq2] at h2
      simp only at h2
      have h3 := resolve_trace cli env1
      split
      · rename_i e t3 heq3
        rcases h3 with ⟨hk, hres⟩ | ⟨hk, d, hres⟩ | ⟨hk, e', hres⟩ <;>
          rw [hres] at heq3 <;> simp only [Prod.mk.injEq] at heq3
        · exact absurd heq3.1 (by simp)
        · exact absurd heq3.1 (by simp)
        · obtain ⟨-, ht3⟩ := heq3
          subst ht3
          rcases h2 with h2 | h2 | h2 <;> subst h2 <;>
            simp [List.count_append, List.count_cons]
      · rename_i target t3 heq3
        have h4 := download_trace cli.url target.path env1
        rcases h3 with ⟨hk, hres⟩ | ⟨hk, d, hres⟩ | ⟨hk, e', hres⟩ <;>
          rw [hres] at heq3 <;> simp only [Prod.mk.injEq, Except.ok.injEq] at heq3
        · obtain ⟨htar, ht3⟩ := heq3
          subst ht3
          subst htar
          dsimp only
          split
          · rename_i e t4 heq4
            rw [heq4] at h4
            simp only at h4
            subst h4
            rcases h2 with h2 | h2 | h2 <;> subst h2 <;>
              simp [List.count_append, List.count_cons, count_setPath_map]
          · rename_i u4 t4 heq4
            rw [heq4] at h4
            simp only at h4
            subst h4
            have h5 := extract_trace cli.video_path cli.out_dir cli.pattern
              cli.fps cli.scale cli.start cli.duration env1
            rcases h5 with h5 | h5 <;> rw [h5] <;>
              rcases h2 with h2 | h2 | h2 <;> subst h2 <;>
              simp [List.count_append, List.count_cons, count_setPath_map]
        · obtain ⟨htar, ht3⟩ := heq3
          subst ht3
          subst htar
          dsimp only
          split
          · rename_i e t4 heq4
            rw [heq4] at h4
            simp only at h4
            subst h4
            rcases h2 with h2 | h2 | h2 <;> subst h2 <;>
              simp [List.count_append, List.count_cons, count_setPath_map]
          · rename_i u4 t4 heq4
            rw [heq4] at h4
            simp only at h4
            subst h4
            have h5 := extract_trace (joinPath d "video.mp4") cli.out_dir cli.pattern
              cli.fps cli.scale cli.start cli.duration env1
            rcases h5 with h5 | h5 <;> rw [h5] <;>
              rcases h2 with h2 | h2 | h2 <;> subst h2 <;>
              simp [List.count_append, List.count_cons, count_setPath_map]
        · exact absurd heq3.1 (by simp)

/-- Claim C2: when the yt-dlp subprocess reports success, the download
succeeds exactly when the target file exists afterwards; an absent file
yields the missing-output error rather than success. -/
theorem download_verifies_output_exists (url path : String) (env : Env)
    (h : env.ytdlpRunOk = true) :
    (download_video_as_mp4 url path env).1 =
      if env.ytdlpProducesFile then .ok path
      else .error (.downloadMissingOutput path) := by
  cases hp : env.ytdlpProducesFile <;> simp [download_video_as_mp4, h, hp]

/-- Witness for C2: concrete environments with and without the file. -/
theorem download_verifies_output_exists_witness :
    ({ envBase with ytdlpProducesFile := false }.ytdlpRunOk = true ∧
      (download_video_as_mp4 "https://example.com/v" "video.mp4"
          { envBase with ytdlpProducesFile := false }).1
        = .error (.downloadMissingOutput "video.mp4")) ∧
    (download_video_as_mp4 "https://example.com/v" "video.mp4" envBase).1
      = .ok "video.mp4" := by
  refine ⟨⟨rfl, ?_⟩, ?_⟩
  · have h := download_verifies_output_exists "https://example.com/v" "video.mp4"
      { envBase with ytdlpProducesFile := false } rfl
    simpa using h
  · have h := download_verifies_output_exists "https://example.com/v" "video.mp4"
      envBase rfl
    simpa using h

/-- Claim C5: the yt-dlp subprocess is always invoked, with the explicit
output path, the MP4-preferring format-selection expression, and the
remux-to-mp4 request. -/
theorem yt_dlp_invocation_arguments (url path : String) (env : Env) :
    Event.runYtDlp (yt_dlp_args path) url ∈ (download_video_as_mp4 url path env).2 ∧
    yt_dlp_args path =
      ["-o", path,
       "-f", "bv*[ext=mp4]+ba[ext=m4a]/b[ext=mp4]/best",
       "--remux-video", "mp4"] := by
  constructor
  · cases hr : env.ytdlpRunOk <;> cases hp : env.ytdlpProducesFile <;>
      simp [download_video_as_mp4, hr, hp]
  · rfl

/-- Claim C7: extraction first creates the output directory; on creation
failure it stops with the output-directory error and never reaches the
ffmpeg run; on success the trace is exactly the directory creation followed
by the ffmpeg invocation. -/
theorem out_dir_created_before_transcode (input out_dir pattern : String)
    (fps : Nat) (scale start duration : Option String) (env : Env) :
    (env.createDirAllOk out_dir = false →
      extract_frames_with_ffmpeg input out_dir pattern fps scale start duration env
        = (.error .outputDirUnavailable, [.createDirAll out_dir])) ∧
    (env.createDirAllOk out_dir = true →
      (extract_frames_with_ffmpeg input out_dir pattern fps scale start duration env).2
        = [.createDirAll out_dir,
           .runFfmpeg (ffmpeg_args input out_dir pattern fps scale start duration)]) := by
  constructor
  · intro h
    simp [extract_frames_with_ffmpeg, h]
  · intro h
    cases hf : env.ffmpegRunOk <;> simp [extract_frames_with_ffmpeg, h, hf]

/-- Witness for C7: both creation outcomes at concrete inputs. -/
theorem out_dir_created_before_transcode_witness :
    ({ envBase with createDirAllOk := fun _ => false }.createDirAllOk "frames" = false ∧
      extract_frames_with_ffmpeg "/tmp/t0/video.mp4" "frames" "frame_%06d.png"
          10 none none none { envBase with createDirAllOk := fun _ => false }
        = (.error .outputDirUnavailable, [.createDirAll "frames"])) ∧
    (envBase.createDirAllOk "frames" = true ∧
      (extract_frames_with_ffmpeg "/tmp/t0/video.mp4" "frames" "frame_%06d.png"
          10 none none none envBase).2
        = [.createDirAll "frames",
           .runFfmpeg (ffmpeg_args "/tmp/t0/video.mp4" "frames" "frame_%06d.png"
             10 none none none)]) :=
  ⟨⟨rfl, (out_dir_created_before_transcode "/tmp/t0/video.mp4" "frames"
      "frame_%06d.png" 10 none none none
      { envBase with createDirAllOk := fun _ => false }).1 rfl⟩,
   ⟨rfl, (out_dir_created_before_transcode "/tmp/t0/video.mp4" "frames"
      "frame_%06d.png" 10 none none none envBase).2 rfl⟩⟩

/-- Claim C10: when yt-dlp already resolves on the search path, the
availability check returns success at once — no fetch, no PATH mutation —
whatever the fetch-if-missing flag is. -/
theorem downloader_present_short_circuits (fetch : Bool) (env : Env) (d : String)
    (h : whichBin env "yt-dlp" = some d) :
    ensure_yt_dlp_available fetch env = (.ok (), [.whichYtDlp], env) := by
  simp [ensure_yt_dlp_available, h]

/-- Witness for C10 at a concrete environment, both flag values. -/
theorem downloader_present_short_circuits_witness :
    whichBin envBase "yt-dlp" = some "/usr/bin" ∧
    ensure_yt_dlp_available true envBase = (.ok (), [.whichYtDlp], envBase) ∧
    ensure_yt_dlp_available false envBase = (.ok (), [.whichYtDlp], envBase) :=
  ⟨rfl,
   downloader_present_short_circuits true envBase "/usr/bin" rfl,
   downloader_present_short_circuits false envBase "/usr/bin" rfl⟩

/-- Claim C3: with ffmpeg unresolvable, the run stops at the configuration
error with a trace of only the ffmpeg lookup: no yt-dlp check, no fetch,
no temp dir, and neither subprocess. -/
theorem transcoder_missing_aborts_first (cli : Cli) (env : Env)
    (h : whichBin env "ffmpeg" = none) :
    run_main cli env
      = (.error (.configurationError "ffmpeg not found on PATH. "),
         [.whichFfmpeg]) ∧
    Event.whichYtDlp ∉ (run_main cli env).2 ∧
    Event.fetchYtDlp ∉ (run_main cli env).2 ∧
    (∀ args url, Event.runYtDlp args url ∉ (run_main cli env).2) ∧
    (∀ args, Event.runFfmpeg args ∉ (run_main cli env).2) := by
  have hrm : run_main cli env
      = (.error (.configurationError "ffmpeg not found on PATH. "),
         [.whichFfmpeg]) := by
    simp [run_main, ensure_ffmpeg_available, h]
  refine ⟨hrm, ?_, ?_, ?_, ?_⟩ <;> simp [hrm]

/-- Witness for C3 at an environment holding only yt-dlp. -/
theorem transcoder_missing_aborts_first_witness :
    whichBin envNoFfmpeg "ffmpeg" = none ∧
    run_main (cliDefault "https://example.com/v") envNoFfmpeg
      = (.error (.configurationError "ffmpeg not found on PATH. "),
         [.whichFfmpeg]) :=
  ⟨rfl,
   (transcoder_missing_aborts_first (cliDefault "https://example.com/v")
     envNoFfmpeg rfl).1⟩

/-- Claim C8: yt-dlp missing without the fetch opt-in is fatal with a
message naming a manual remedy (`pip install yt-dlp`) and the alternative
flag; no fetch and no download subprocess happen anywhere in the run. With
the opt-in, the acquirer is invoked instead. -/
theorem missing_downloader_policy (cli : Cli) (env : Env)
    (h : whichBin env "yt-dlp" = none) :
    (∃ a b, ytDlpMissingMsg = a ++ "pip install yt-dlp" ++ b) ∧
    (∃ a b, ytDlpMissingMsg = a ++ "--fetch-yt-dlp" ++ b) ∧
    (cli.fetch_yt_dlp = false →
      ensure_yt_dlp_available cli.fetch_yt_dlp env
        = (.error (.ytDlpMissing ytDlpMissingMsg), [.whichYtDlp], env) ∧
      Event.fetchYtDlp ∉ (run_main cli env).2 ∧
      (∀ args url, Event.runYtDlp args url ∉ (run_main cli env).2)) ∧
    (cli.fetch_yt_dlp = true →
      Event.fetchYtDlp ∈ (ensure_yt_dlp_available cli.fetch_yt_dlp env).2.1) := by
  refine ⟨?_, ?_, ?_, ?_⟩
  · exact ⟨"yt-dlp not found on PATH. Install it (`",
           "`, package manager) or run with --fetch-yt-dlp.", rfl⟩
  · exact ⟨"yt-dlp not found on PATH. Install it (`pip install yt-dlp`, package manager) or run with ",
           ".", rfl⟩
  · intro hf
    refine ⟨by simp [ensure_yt_dlp_available, h, hf], ?_, ?_⟩ <;>
      cases hw : whichBin env "ffmpeg" <;>
      simp [run_main, ensure_ffmpeg_available, ensure_yt_dlp_available, h, hf, hw]
  · intro hf
    cases hfo : env.fetchOutcome <;>
      simp [ensure_yt_dlp_available, h, hf, hfo]

/-- Witness for C8: the environment without yt-dlp, both flag values. -/
theorem missing_downloader_policy_witness :
    whichBin envNoYtDlp "yt-dlp" = none ∧
    ensure_yt_dlp_available false envNoYtDlp
      = (.error (.ytDlpMissing ytDlpMissingMsg), [.whichYtDlp], envNoYtDlp) ∧
    Event.fetchYtDlp ∈ (ensure_yt_dlp_available true envNoYtDlp).2.1 :=
  ⟨rfl,
   ((missing_downloader_policy (cliDefault "https://example.com/v")
       envNoYtDlp rfl).2.2.1 rfl).1,
   (missing_downloader_policy (cliFetch "https://example.com/v")
       envNoYtDlp rfl).2.2.2 rfl⟩

/-- Claim C6: retention keeps the caller path (default "video.mp4") with no
ephemeral scope; otherwise a fresh temp dir is created and the target is
video.mp4 inside it; a temp-dir failure is a resource error and the run
reaches neither subprocess. -/
theorem video_target_resolution (cli : Cli) (env : Env) (url d e : String) :
    (cliDefault url).video_path = "video.mp4" ∧
    (cli.keep_video = true →
      resolve_video_target cli env = (.ok ⟨cli.video_path, none⟩, [])) ∧
    (cli.keep_video = false → env.tempdirOutcome = .ok d →
      resolve_video_target cli env
        = (.ok ⟨joinPath d "video.mp4", some d⟩, [.createTempDir true])) ∧
    (cli.keep_video = false → env.tempdirOutcome = .error e →
      (resolve_video_target cli env).1 = .error (.resourceError e) ∧
      (∀ args u, Event.runYtDlp args u ∉ (run_main cli env).2) ∧
      (∀ args, Event.runFfmpeg args ∉ (run_main cli env).2)) := by
  refine ⟨rfl, ?_, ?_, ?_⟩
  · intro hk
    simp [resolve_video_target, hk]
  · intro hk ht
    simp [resolve_video_target, hk, ht]
  · intro hk ht
    refine ⟨by simp [resolve_video_target, hk, ht], ?_, ?_⟩ <;>
      cases hw : whichBin env "ffmpeg" <;>
      cases hy : whichBin env "yt-dlp" <;>
      cases hf : cli.fetch_yt_dlp <;>
      cases hfo : env.fetchOutcome <;>
      simp [run_main, ensure_ffmpeg_available, ensure_yt_dlp_available,
            resolve_video_target, hk, ht, hw, hy, hf, hfo]

/-- Witness for C6: all three resolution scenarios at concrete inputs. -/
theorem video_target_resolution_witness :
    resolve_video_target (cliKeep "https://example.com/v") envBase
      = (.ok ⟨"video.mp4", none⟩, []) ∧
    resolve_video_target (cliDefault "https://example.com/v") envBase
      = (.ok ⟨joinPath "/tmp/t0" "video.mp4", some "/tmp/t0"⟩,
         [.createTempDir true]) ∧
    (resolve_video_target (cliDefault "https://example.com/v")
        { envBase with tempdirOutcome := .error "no usable temp location" }).1
      = .error (.resourceError "no usable temp location") :=
  ⟨(video_target_resolution (cliKeep "https://example.com/v") envBase
      "u" "d" "e").2.1 rfl,
   (video_target_resolution (cliDefault "https://example.com/v") envBase
      "u" "/tmp/t0" "e").2.2.1 rfl rfl,
   ((video_target_resolution (cliDefault "https://example.com/v")
      { envBase with tempdirOutcome := .error "no usable temp location" }
      "u" "d" "no usable temp location").2.2.2 rfl rfl).1⟩

/-- Claim C4: when an ephemeral scope was created (createTempDir true
happened), every exit path of the run also removes it; with retention
requested no removal ever happens (the model deletes nothing but the temp
dir, so the caller-supplied file is untouched). -/
theorem ephemeral_scope_released (cli : Cli) (env : Env) :
    (cli.keep_video = true → Event.removeTempDir ∉ (run_main cli env).2) ∧
    (Event.createTempDir true ∈ (run_main cli env).2 →
      Event.removeTempDir ∈ (run_main cli env).2) :=
  ⟨fun hk => ((run_main_scope cli env).1 hk).1, (run_main_scope cli env).2⟩

/-- Witness for C4: a retention run deletes nothing; an ephemeral run both
creates and removes the scope. -/
theorem ephemeral_scope_released_witness :
    ((cliKeep "https://example.com/v").keep_video = true ∧
      Event.removeTempDir ∉
        (run_main (cliKeep "https://example.com/v") envBase).2) ∧
    (Event.createTempDir true ∈
        (run_main (cliDefault "https://example.com/v") envBase).2 ∧
      Event.removeTempDir ∈
        (run_main (cliDefault "https://example.com/v") envBase).2) :=
  ⟨⟨rfl, (ephemeral_scope_released (cliKeep "https://example.com/v")
      envBase).1 rfl⟩,
   ⟨by decide, (ephemeral_scope_released (cliDefault "https://example.com/v")
      envBase).2 (by decide)⟩⟩

/-- Claim C9: a successful acquisition of the missing downloader prepends
the fetched binary's parent directory to the process-local search path (the
old entries stay as the tail, unrewritten), performs exactly one PATH
mutation there — and no run performs more than one — and the subsequent
lookup of the tool by name succeeds. -/
theorem acquisition_prepends_search_path (env : Env) (p : String)
    (hmiss : whichBin env "yt-dlp" = none) (hfetch : env.fetchOutcome = .ok p) :
    (ensure_yt_dlp_available true env).1 = .ok () ∧
    ((ensure_yt_dlp_available true env).2.2).pathDirs
      = parentOrDot p :: env.pathDirs ∧
    whichBin ((ensure_yt_dlp_available true env).2.2) "yt-dlp"
      = some (parentOrDot p) ∧
    ((ensure_yt_dlp_available true env).2.1).count Event.setPath = 1 ∧
    (∀ (cli' : Cli) (env' : Env),
      ((run_main cli' env').2).count Event.setPath ≤ 1) := by
  have hsome : (whichBin env "yt-dlp").isSome = false := by simp [hmiss]
  refine ⟨?_, ?_, ?_, ?_, fun cli' env' => run_main_setPath_once cli' env'⟩
  · simp [ensure_yt_dlp_available, hsome, hfetch]
  · simp [ensure_yt_dlp_available, hsome, hfetch]
  · simp only [ensure_yt_dlp_available, hsome, hfetch]
    simp [whichBin, List.find?]
  · simp [ensure_yt_dlp_available, hsome, hfetch, List.count_cons]

/-- Witness for C9 at a concrete environment missing yt-dlp whose fetch
succeeds. -/
theorem acquisition_prepends_search_path_witness :
    whichBin envNoYtDlp "yt-dlp" = none ∧
    envNoYtDlp.fetchOutcome = .ok "/opt/tools/yt-dlp" ∧
    ((ensure_yt_dlp_available true envNoYtDlp).2.2).pathDirs
      = parentOrDot "/opt/tools/yt-dlp" :: envNoYtDlp.pathDirs ∧
    whichBin ((ensure_yt_dlp_available true envNoYtDlp).2.2) "yt-dlp"
      = some (parentOrDot "/opt/tools/yt-dlp") :=
  ⟨rfl, rfl,
   (acquisition_prepends_search_path envNoYtDlp "/opt/tools/yt-dlp"
      rfl rfl).2.1,
   (acquisition_prepends_search_path envNoYtDlp "/opt/tools/yt-dlp"
      rfl rfl).2.2.1⟩

end YoutubeToJpg
